import Mathlib

/-!
Verification of the web backend of the service-screener repository
(webapp/app.py and webapp/sso_auth.py), as a shallow embedding.

Python dictionaries and object attributes become Lean structures; the
boto3 / subprocess / filesystem collaborators are modelled as explicit
inputs (provider responses, subprocess output lines, exit code, report
directory listing); Python truthiness on optional strings is modelled by
`strFalsy`.  Each definition mirrors one function of the source.
-/

/-- Decidable prefix test on character lists (needle, haystack). -/
def prefAt : List Char → List Char → Bool
  | [], _ => true
  | _ :: _, [] => false
  | a :: as, b :: bs => a == b && prefAt as bs

/-- Decidable substring-occurrence test on character lists (needle, haystack). -/
def findSub : List Char → List Char → Bool
  | n, [] => n == ([] : List Char)
  | n, c :: rest => prefAt n (c :: rest) || findSub n rest

/-- Python `needle in hay` on strings. -/
def strContains (hay needle : String) : Bool := findSub needle.data hay.data

/-- Python `s.lower()` (ASCII-adequate model). -/
def strLower (s : String) : String := String.mk (s.data.map Char.toLower)

/-- Python truthiness of an optional string: `None` and `""` are falsy. -/
def strFalsy : Option String → Bool
  | none => true
  | some s => s == ""

/-- Python `s.strip()`: drop leading and trailing whitespace. -/
def strTrim (s : String) : String :=
  String.mk (((s.data.dropWhile Char.isWhitespace).reverse.dropWhile Char.isWhitespace).reverse)

/-- Python `s.rstrip('/')`. -/
def rstripSlash (s : String) : String :=
  String.mk (((s.data.reverse).dropWhile (fun c => c == '/')).reverse)

/-- Python `s.endswith(t)`. -/
def endsWithStr (s t : String) : Bool := prefAt t.data.reverse s.data.reverse

/-- Python `s.split('#')[0]`. -/
def beforeHash (s : String) : String :=
  String.mk (s.data.takeWhile (fun c => !(c == '#')))

/-- Python `s[:n]` on a string, by characters. -/
def takeChars (s : String) (n : Nat) : String := String.mk (s.data.take n)

/-- Python `s.isdigit()` (ASCII-adequate model). -/
def isDigitName (s : String) : Bool := !(s.data.isEmpty) && s.data.all Char.isDigit

/-- Decimal rendering of a natural number, as Python `str(n)` / f-string. -/
def natStr (n : Nat) : String := toString n

/-! ## SSO handler state and collaborator responses (webapp/sso_auth.py) -/

/-- The mutable attributes of `SSOAuthHandler`.  The two boto3 client
attributes are modelled by the region the cached client was created for
(`none` = attribute is `None`). -/
structure SSOState where
  sso_oidc_client : Option String
  sso_client : Option String
  client_id : Option String
  client_secret : Option String
  device_code : Option String
  access_token : Option String
  token_expiry : Option Nat
  current_region : Option String
deriving DecidableEq

/-- `SSOAuthHandler.get_sso_oidc_client`: reset all client state when the
region changed, then create the OIDC client if absent. -/
def get_sso_oidc_client (st : SSOState) (region : String) : SSOState :=
  let st :=
    if st.current_region ≠ some region then
      { st with sso_oidc_client := none, sso_client := none,
                client_id := none, client_secret := none,
                current_region := some region }
    else st
  if st.sso_oidc_client = none then { st with sso_oidc_client := some region } else st

/-- `SSOAuthHandler.get_sso_client`: create the SSO client if absent
(no region-change reset here, mirroring the source). -/
def get_sso_client (st : SSOState) (region : String) : SSOState :=
  if st.sso_client = none then { st with sso_client := some region } else st

/-- `SSOAuthHandler.is_authenticated`: a token and an expiry must be
present and the current time must be strictly before the expiry. -/
def is_authenticated (st : SSOState) (now : Nat) : Bool :=
  match st.access_token, st.token_expiry with
  | none, _ => false
  | some _, none => false
  | some tok, some e => if tok == "" then false else decide (now < e)

/-- `SSOAuthHandler.detect_region_from_url`: region substring chain,
guarded by the URL containing `awsapps.com`; default `us-east-1`. -/
def detect_region_from_url (start_url : String) : String :=
  let u := strLower start_url
  if strContains u "awsapps.com" then
    if strContains u ".us-east-1." || strContains u "us-east-1" then "us-east-1"
    else if strContains u ".us-east-2." || strContains u "us-east-2" then "us-east-2"
    else if strContains u ".us-west-2." || strContains u "us-west-2" then "us-west-2"
    else if strContains u ".eu-west-1." || strContains u "eu-west-1" then "eu-west-1"
    else if strContains u ".eu-central-1." || strContains u "eu-central-1" then "eu-central-1"
    else if strContains u ".ap-southeast-1." || strContains u "ap-southeast-1" then "ap-southeast-1"
    else if strContains u ".ap-northeast-1." || strContains u "ap-northeast-1" then "ap-northeast-1"
    else "us-east-1"
  else "us-east-1"

/-- `SSOAuthHandler.normalize_start_url`. -/
def normalize_start_url (start_url : String) : String :=
  let url := strTrim start_url
  let url := rstripSlash url
  if endsWithStr url "/start" then url
  else if strContains url "/start#" then beforeHash url
  else if strContains url "/start" then url
  else url ++ "/start"

/-- Provider response to `register_client`. -/
structure RegisterResponse where
  clientId : String
  clientSecret : String
  clientSecretExpiresAt : Nat
deriving DecidableEq

/-- Provider response to `start_device_authorization`. -/
structure DeviceAuthResponse where
  deviceCode : String
  userCode : String
  verificationUri : String
  verificationUriComplete : String
  expiresIn : Nat
  interval : Nat
deriving DecidableEq

/-- `SSOAuthHandler.register_client`: always issues a provider
registration call and stores the returned pair. -/
def register_client (st : SSOState) (region : String) (resp : RegisterResponse) : SSOState :=
  let st := get_sso_oidc_client st region
  { st with client_id := some resp.clientId, client_secret := some resp.clientSecret }

/-- The dictionary returned by `start_device_authorization`. -/
structure StartAuthResult where
  device_code : String
  user_code : String
  verification_uri : String
  verification_uri_complete : String
  expires_in : Nat
  interval : Nat
  region : String
deriving DecidableEq

/-- Output of `start_device_authorization`, including observability flags:
whether a provider registration call was made, whether the region was
inferred from the URL, which region was used, and which start URL was sent. -/
structure StartAuthOut where
  result : StartAuthResult
  st : SSOState
  registeredCall : Bool
  inferredRegion : Bool
  usedRegion : String
  sentStartUrl : String
deriving DecidableEq

/-- `SSOAuthHandler.start_device_authorization`: normalize the URL, infer
the region when the argument is falsy, register a client (always), obtain
the device authorization and store the device code. -/
def start_device_authorization (st : SSOState) (start_url : String) (region : Option String)
    (rr : RegisterResponse) (dr : DeviceAuthResponse) : StartAuthOut :=
  let normalized := normalize_start_url start_url
  let inferred := strFalsy region
  let reg := if inferred then detect_region_from_url start_url else region.getD ""
  let st := register_client st reg rr
  let st := get_sso_oidc_client st reg
  let st := { st with device_code := some dr.deviceCode }
  { result := { device_code := dr.deviceCode, user_code := dr.userCode,
                verification_uri := dr.verificationUri,
                verification_uri_complete := dr.verificationUriComplete,
                expires_in := dr.expiresIn, interval := dr.interval, region := reg },
    st := st, registeredCall := true, inferredRegion := inferred,
    usedRegion := reg, sentStartUrl := normalized }

/-- Provider outcome of the `create_token` call inside `poll_for_token`. -/
inductive TokenProviderResult
  | success (accessToken : String) (expiresIn : Nat) (tokenType : Option String)
  | authorizationPending
  | slowDown
  | expiredToken
  | accessDenied
  | otherError (msg : String)
deriving DecidableEq

/-- The dictionary returned by `poll_for_token`. -/
structure PollResult where
  status : String
  message : Option String
  access_token : Option String
  expires_in : Option Nat
  token_type : Option String
deriving DecidableEq

/-- An error-status poll result carrying a message. -/
def pollError (m : String) : PollResult :=
  { status := "error", message := some m,
    access_token := none, expires_in := none, token_type := none }

/-- `SSOAuthHandler.poll_for_token`: guards on device code and client id,
then maps each provider outcome; `Expired` and `Denied` clear the device
code, the other outcomes leave it in place. -/
def poll_for_token (st : SSOState) (now : Nat) (provider : TokenProviderResult)
    (region : String) : PollResult × SSOState :=
  if strFalsy st.device_code then (pollError "No device authorization in progress", st)
  else if strFalsy st.client_id then (pollError "Client not registered", st)
  else
    let st := get_sso_oidc_client st region
    match provider with
    | .success tok exp tt =>
        ({ status := "success", message := none, access_token := some tok,
           expires_in := some exp, token_type := some (tt.getD "Bearer") },
         { st with access_token := some tok, token_expiry := some (now + exp) })
    | .authorizationPending =>
        ({ status := "pending", message := some "Waiting for user to complete authorization",
           access_token := none, expires_in := none, token_type := none }, st)
    | .slowDown =>
        ({ status := "slow_down", message := some "Polling too fast, slow down",
           access_token := none, expires_in := none, token_type := none }, st)
    | .expiredToken =>
        ({ status := "expired", message := some "Authorization expired, please start again",
           access_token := none, expires_in := none, token_type := none },
         { st with device_code := none })
    | .accessDenied =>
        ({ status := "denied", message := some "Access denied by user",
           access_token := none, expires_in := none, token_type := none },
         { st with device_code := none })
    | .otherError m => (pollError m, st)

/-- A role-credential triad plus expiry, as returned by the provider. -/
structure RoleCreds where
  access_key_id : String
  secret_access_key : String
  session_token : String
  expiration : Nat
deriving DecidableEq

/-- Provider outcome of the `get_role_credentials` network call. -/
inductive ProviderCredsResult
  | ok (c : RoleCreds)
  | err (msg : String)
deriving DecidableEq

/-- The value returned by `get_role_credentials`: either the credential
dictionary or an error dictionary. -/
inductive CredsOutcome
  | creds (c : RoleCreds)
  | error (msg : String)
deriving DecidableEq

/-- Output of `get_role_credentials`: the returned value, whether the
provider network call was attempted, and the updated handler state. -/
structure CredsOut where
  outcome : CredsOutcome
  attempted : Bool
  st : SSOState
deriving DecidableEq

/-- `SSOAuthHandler.get_role_credentials`: returns the error value when no
access token is present (expiry is not consulted), otherwise performs the
provider exchange and wraps any provider failure as an error value. -/
def get_role_credentials (st : SSOState) (provider : ProviderCredsResult)
    (account_id role_name region : String) : CredsOut :=
  if strFalsy st.access_token then
    { outcome := .error "Not authenticated", attempted := false, st := st }
  else
    let st := get_sso_client st region
    match provider with
    | .ok c => { outcome := .creds c, attempted := true, st := st }
    | .err m => { outcome := .error m, attempted := true, st := st }

/-! ## Web application model (webapp/app.py) -/

/-- The `ScanRequest` pydantic model. -/
structure ScanRequest where
  regions : List String
  services : List String
  frameworks : List String
  aws_profile : Option String
  sso_account_id : Option String
  sso_role_name : Option String
  use_sso : Bool
deriving DecidableEq

/-- Job status strings stored in a job record. -/
inductive JobStatus
  | pending
  | running
  | completed
  | failed
deriving DecidableEq

/-- The statuses on which the WebSocket loop stops. -/
def JobStatus.isTerminal : JobStatus → Bool
  | .completed => true
  | .failed => true
  | _ => false

/-- One entry of the `scan_jobs` registry. -/
structure Job where
  job_id : String
  status : JobStatus
  progress : Nat
  current_task : String
  created_at : Nat
  completed_at : Option Nat
  report_path : Option String
  error : Option String
  request : ScanRequest
deriving DecidableEq

/-- The record `start_scan` writes into the registry. -/
def initialJob (job_id : String) (now : Nat) (req : ScanRequest) : Job :=
  { job_id := job_id, status := .pending, progress := 0,
    current_task := "Initializing...", created_at := now,
    completed_at := none, report_path := none, error := none, request := req }

/-- `start_scan`: unconditionally create a pending job record and append it
to the registry (Python dict insertion order). -/
def start_scan (registry : List Job) (job_id : String) (now : Nat) (req : ScanRequest) :
    Job × List Job :=
  let job := initialJob job_id now req
  (job, registry ++ [job])

/-- `list_scans`: `list(scan_jobs.values())`, i.e. the records in insertion
order. -/
def list_scans (registry : List Job) : List Job := registry

/-- The service-start marker test of the output loop:
`"Processing" in line or "Scanning" in line`. -/
def markerLine (line : String) : Bool :=
  strContains line "Processing" || strContains line "Scanning"

/-- `line.strip()[:100]`, the stored task description. -/
def truncTask (line : String) : String := takeChars (strTrim line) 100

/-- The progress formula of the output loop:
`min(10 + int((scanned / total) * 80), 90)` (exact rational, floored). -/
def progressFor (scanned total : Nat) : Nat := min (10 + scanned * 80 / total) 90

/-- Result of the output-consuming loop: the job snapshots written, the
final counter, the final job value, the retained output lines, and whether
a division-by-zero exception escaped (total service count zero). -/
structure LoopOut where
  trace : List Job
  scanned : Nat
  job : Job
  buf : List String
  exc : Bool
deriving DecidableEq

/-- The `for line in iter(process.stdout.readline, '')` loop of `run_scan`:
every line is retained; a marker line increments the counter and rewrites
progress and task. -/
def scanLoop (total : Nat) (scanned : Nat) (j : Job) (buf : List String) :
    List String → LoopOut
  | [] => { trace := [], scanned := scanned, job := j, buf := buf, exc := false }
  | line :: rest =>
    if line == "" then { trace := [], scanned := scanned, job := j, buf := buf, exc := false }
    else
      let buf := buf ++ [strTrim line]
      if markerLine line then
        let s := scanned + 1
        if total == 0 then { trace := [], scanned := s, job := j, buf := buf, exc := true }
        else
          let j1 := { j with progress := progressFor s total }
          let j2 := { j1 with current_task := truncTask line }
          let out := scanLoop total s j2 buf rest
          { out with trace := j1 :: j2 :: out.trace }
      else
        scanLoop total scanned j buf rest

/-- The credentials carried in the spawned subprocess environment. -/
inductive CredMode
  | ssoKeys (c : RoleCreds)
  | profile (name : String)
  | ambient
deriving DecidableEq

/-- `"\n".join(output_lines[-10:]) if output_lines else "No output"`. -/
def lastLines (buf : List String) : String :=
  if buf.isEmpty then "No output"
  else String.intercalate "\n" (buf.drop (buf.length - 10))

/-- The collaborators of one `run_scan` execution: handler state, clock,
provider response for the credential exchange, subprocess output and exit
code, report directory listing, completion clock. -/
structure ScanEnv where
  sso : SSOState
  now : Nat
  creds_provider : ProviderCredsResult
  output_lines : List String
  exit_code : Nat
  report_dirs : List String
  finish_time : Nat
deriving DecidableEq

/-- The environment credentials used when the SSO branch is not taken:
`AWS_PROFILE` when the request names a profile, ambient otherwise. -/
def fallbackMode (req : ScanRequest) : CredMode :=
  if strFalsy req.aws_profile then .ambient else .profile (req.aws_profile.getD "")

/-- `sso_handler.current_region or "us-east-1"`, the region used for the
credential exchange inside `run_scan`. -/
def ssoCredsRegion (env : ScanEnv) : String :=
  if strFalsy env.sso.current_region then "us-east-1" else env.sso.current_region.getD ""

/-- The credential-exchange value `run_scan` observes for an SSO request. -/
def ssoOutcomeFor (req : ScanRequest) (env : ScanEnv) : CredsOutcome :=
  (get_role_credentials env.sso env.creds_provider
    (req.sso_account_id.getD "") (req.sso_role_name.getD "") (ssoCredsRegion env)).outcome

/-- Both SSO selector fields present (Python truthiness). -/
def hasSSOSelection (req : ScanRequest) : Bool :=
  !(strFalsy req.sso_account_id) && !(strFalsy req.sso_role_name)

/-- Whether a credential outcome is the error dictionary. -/
def isErrorOutcome : CredsOutcome → Bool
  | .error _ => true
  | .creds _ => false

/-- The task text written before the subprocess is spawned. -/
def scanMsg (req : ScanRequest) : String :=
  "Scanning " ++ natStr req.services.length ++ " services in " ++
    natStr req.regions.length ++ " regions..."

/-- The record writes after the subprocess exits (or after the
division-by-zero exception): Completed with progress 100 and report
discovery on exit code 0, Failed with the diagnostic message otherwise. -/
def termSegment (out : LoopOut) (env : ScanEnv) : List Job :=
  if out.exc then
    let f1 := { out.job with status := .failed }
    let f2 := { f1 with error := some "division by zero" }
    [f1, f2]
  else if env.exit_code == 0 then
    let c1 := { out.job with status := .completed }
    let c2 := { c1 with progress := 100 }
    let c3 := { c2 with current_task := "Scan completed successfully" }
    let c4 := { c3 with completed_at := some env.finish_time }
    match env.report_dirs.find? isDigitName with
    | some name =>
        let c5 := { c4 with report_path := some ("/reports/" ++ name ++ "/index.html") }
        [c1, c2, c3, c4, c5]
    | none => [c1, c2, c3, c4]
  else
    let failMsg := "Scan failed (exit code " ++ natStr env.exit_code ++
        "). Last output:\n" ++ lastLines out.buf
    let f1 := { out.job with status := .failed }
    let f2 := { f1 with error := some failMsg }
    [f1, f2]

/-- The job after the task write that precedes the progress-10 write. -/
def jobPreSpawn (j : Job) (req : ScanRequest) : Job := { j with current_task := scanMsg req }

/-- The job at progress 10, the state in which the loop starts. -/
def jobAtTen (j : Job) (req : ScanRequest) : Job := { jobPreSpawn j req with progress := 10 }

/-- The output-loop run of one `run_scan` execution. -/
def loopOutFor (j : Job) (req : ScanRequest) (env : ScanEnv) : LoopOut :=
  scanLoop req.services.length 0 (jobAtTen j req) [] env.output_lines

/-- The part of `run_scan` from the task/progress writes preceding the
spawn to the terminal transition: spawn the subprocess, consume its
output, then write the terminal segment. -/
def continueScan (j : Job) (mode : CredMode) (req : ScanRequest) (env : ScanEnv) :
    List Job × Option CredMode :=
  ([jobPreSpawn j req, jobAtTen j req] ++ (loopOutFor j req env).trace
      ++ termSegment (loopOutFor j req env) env, some mode)

/-- The first record write of `run_scan`: status Running. -/
def jobRunning (j0 : Job) : Job := { j0 with status := .running }

/-- The second write: the preparing task text. -/
def jobPreparing (j0 : Job) : Job := { jobRunning j0 with current_task := "Preparing scan..." }

/-- The third write: progress 5. -/
def jobAtFive (j0 : Job) : Job := { jobPreparing j0 with progress := 5 }

/-- The task write at the start of the SSO branch. -/
def jobGettingCreds (j0 : Job) : Job :=
  { jobAtFive j0 with current_task := "Getting SSO credentials..." }

/-- The task write after a successful credential exchange. -/
def jobObtained (j0 : Job) (req : ScanRequest) : Job :=
  { jobGettingCreds j0 with current_task :=
      "SSO credentials obtained for account " ++ req.sso_account_id.getD "" }

/-- The two writes of an early SSO failure: status Failed, then the error. -/
def failPair (j : Job) (msg : String) : List Job :=
  [{ j with status := .failed }, { { j with status := .failed } with error := some msg }]

/-- `run_scan`: the sequence of job-record writes (as successive snapshots)
and the credential mode of the spawned subprocess (`none` = the subprocess
was never spawned). -/
def run_scan (j0 : Job) (req : ScanRequest) (env : ScanEnv) : List Job × Option CredMode :=
  let pre := [jobRunning j0, jobPreparing j0, jobAtFive j0]
  if req.use_sso && is_authenticated env.sso env.now then
    if hasSSOSelection req then
      match ssoOutcomeFor req env with
      | .error m =>
          (pre ++ [jobGettingCreds j0]
            ++ failPair (jobGettingCreds j0) ("Failed to get SSO credentials: " ++ m), none)
      | .creds c =>
          let out := continueScan (jobObtained j0 req) (.ssoKeys c) req env
          (pre ++ [jobGettingCreds j0, jobObtained j0 req] ++ out.1, out.2)
    else
      (pre ++ [jobGettingCreds j0]
        ++ failPair (jobGettingCreds j0)
            "SSO login detected but no account/role selected. Please select an account and role.",
       none)
  else
    let out := continueScan (jobAtFive j0) (fallbackMode req) req env
    (pre ++ out.1, out.2)

/-- The WebSocket loop of `websocket_scan_progress`, applied to the
snapshots it samples: it forwards each one and stops right after the first
terminal-status snapshot. -/
def observe : List Job → List Job
  | [] => []
  | j :: rest => if j.status.isTerminal then [j] else j :: observe rest

/-- The last record write of a run (the job's final state). -/
def lastJob (j0 : Job) (tr : List Job) : Job := (tr.getLast?).getD j0

/-- How many output lines carry the service-start marker. -/
def countMarkers : List String → Nat
  | [] => 0
  | l :: rest => (if markerLine l then 1 else 0) + countMarkers rest

/-! ## SSO start endpoint model (request parsing) -/

/-- The JSON `region` field of `SSOStartRequest` as received over HTTP:
omitted, explicit null, or an explicit string. -/
inductive RegionField
  | omitted
  | null
  | given (s : String)
deriving DecidableEq

/-- Pydantic parsing of `region: Optional[str] = "us-east-1"`: the default
applies only when the field is omitted; an explicit null stays `None`. -/
def parseRegionField : RegionField → Option String
  | .omitted => some "us-east-1"
  | .null => none
  | .given s => some s

/-- The `sso_start` endpoint: parse the request model and call
`start_device_authorization` with the parsed region. -/
def sso_start (st : SSOState) (start_url : String) (region : RegionField)
    (rr : RegisterResponse) (dr : DeviceAuthResponse) : StartAuthOut :=
  start_device_authorization st start_url (parseRegionField region) rr dr

/-! ## Trace predicates -/

/-- Progress is non-decreasing along the snapshots, starting from `p`. -/
def monoFrom : Nat → List Job → Prop
  | _, [] => True
  | p, j :: rest => p ≤ j.progress ∧ monoFrom j.progress rest

/-- The progress of the last snapshot (`p` when there is none). -/
def lastProg (p : Nat) : List Job → Nat
  | [] => p
  | j :: rest => lastProg j.progress rest

/-- Once a terminal status appears, every later snapshot has that status. -/
def statusStable : List Job → Prop
  | [] => True
  | j :: rest => (j.status.isTerminal = true → ∀ k ∈ rest, k.status = j.status) ∧ statusStable rest

/-- No element follows the first terminal-status element. -/
def noFurtherAfterTerminal : List Job → Prop
  | [] => True
  | j :: rest => (j.status.isTerminal = true → rest = []) ∧ noFurtherAfterTerminal rest

/-! ## Concrete instances used by counterexamples and witnesses -/

/-- A handler state holding no token, no client and no session. -/
def ssoFresh : SSOState :=
  { sso_oidc_client := none, sso_client := none, client_id := none, client_secret := none,
    device_code := none, access_token := none, token_expiry := none, current_region := none }

/-- A handler state whose token expired at time 10. -/
def ssoExpired : SSOState :=
  { ssoFresh with access_token := some "cached-token", token_expiry := some 10,
                  current_region := some "us-east-1" }

/-- A handler state with registered client and in-flight device session. -/
def ssoInFlight : SSOState :=
  { sso_oidc_client := some "us-east-1", sso_client := none,
    client_id := some "client-1", client_secret := some "secret-1",
    device_code := some "device-1", access_token := none, token_expiry := none,
    current_region := some "us-east-1" }

/-- A handler state with a registered client but no device session. -/
def ssoRegistered : SSOState :=
  { ssoInFlight with device_code := none }

/-- A concrete role credential triad. -/
def credsSample : RoleCreds :=
  { access_key_id := "AKIAEXAMPLE", secret_access_key := "secretExample",
    session_token := "tokenExample", expiration := 999 }

/-- A registration response. -/
def rrSample : RegisterResponse :=
  { clientId := "client-2", clientSecret := "secret-2", clientSecretExpiresAt := 100 }

/-- A device-authorization response. -/
def drSample : DeviceAuthResponse :=
  { deviceCode := "device-2", userCode := "ABCD-EFGH",
    verificationUri := "https://device.sso.us-east-1.amazonaws.com/",
    verificationUriComplete := "https://device.sso.us-east-1.amazonaws.com/?user_code=ABCD-EFGH",
    expiresIn := 600, interval := 5 }

/-- A request naming both a profile and an SSO account/role. -/
def reqBoth : ScanRequest :=
  { regions := ["us-east-1"], services := ["ec2"], frameworks := [],
    aws_profile := some "default", sso_account_id := some "111122223333",
    sso_role_name := some "Admin", use_sso := true }

/-- An SSO request without a profile. -/
def reqSSO : ScanRequest := { reqBoth with aws_profile := none }

/-- A plain profile request. -/
def reqPlain : ScanRequest :=
  { reqBoth with sso_account_id := none, sso_role_name := none, use_sso := false }

/-- A request selecting two services (total service count 2). -/
def reqTwo : ScanRequest := { reqPlain with services := ["ec2", "s3"] }

/-- A pending job for `reqSSO`. -/
def jobSSO : Job := initialJob "job-1" 0 reqSSO

/-- A pending job for `reqTwo`. -/
def jobTwo : Job := initialJob "job-2" 0 reqTwo

/-- A running job snapshot at progress 10, as it is when the loop starts. -/
def jobLoop : Job :=
  { jobTwo with status := .running, progress := 10,
                current_task := "Scanning 2 services in 1 regions..." }

/-- An environment with an unauthenticated handler and a clean subprocess. -/
def envUnauth : ScanEnv :=
  { sso := ssoFresh, now := 0, creds_provider := .err "unused",
    output_lines := [], exit_code := 0, report_dirs := [], finish_time := 7 }

/-- An environment with two marker lines and total service count 2. -/
def envTwo : ScanEnv :=
  { sso := ssoFresh, now := 0, creds_provider := .err "unused",
    output_lines := ["Processing ec2 in us-east-1", "noise line", "Scanning s3 buckets"],
    exit_code := 0, report_dirs := ["111122223333"], finish_time := 7 }

/-- Descending order of creation times, as a decidable check. -/
def sortedDescB : List Job → Bool
  | a :: b :: rest => decide (b.created_at ≤ a.created_at) && sortedDescB (b :: rest)
  | _ => true

/-- Ascending order of creation times, as a decidable check. -/
def sortedAscB : List Job → Bool
  | a :: b :: rest => decide (a.created_at ≤ b.created_at) && sortedAscB (b :: rest)
  | _ => true

/-- The registry after two submissions at times 1 and 2. -/
def regTwoJobs : List Job :=
  (start_scan ((start_scan [] "job-a" 1 reqPlain).2) "job-b" 2 reqPlain).2

/-- A URL carrying exactly one region indicator but no `awsapps.com`. -/
def urlNonAwsapps : String := "https://sso.eu-west-1.example.com/start"

/-- An authenticated handler state (valid until time 100). -/
def ssoAuthed : SSOState :=
  { ssoFresh with access_token := some "valid-token", token_expiry := some 100,
                  current_region := some "us-east-1" }

/-- The unauthenticated scan environment with the handler authenticated. -/
def envAuthed : ScanEnv := { envUnauth with sso := ssoAuthed }

/-- An SSO request missing the account id. -/
def reqSSONoSel : ScanRequest := { reqSSO with sso_account_id := none }

/-- A pending job for `reqSSONoSel`. -/
def jobNoSel : Job := initialJob "job-3" 0 reqSSONoSel

/-! ## Helper lemmas -/

theorem prefAt_iff (n h : List Char) : prefAt n h = true ↔ n <+: h := by
  induction n generalizing h with
  | nil => simp [prefAt]
  | cons a as ih =>
    cases h with
    | nil => simp [prefAt]
    | cons b bs => simp [prefAt, List.cons_prefix_cons, ih, And.comm]

theorem findSub_iff (n h : List Char) : findSub n h = true ↔ n <:+: h := by
  induction h with
  | nil => simp [findSub, List.infix_nil]
  | cons c rest ih =>
    rw [show findSub n (c :: rest) = (prefAt n (c :: rest) || findSub n rest) from rfl]
    simp [prefAt_iff, ih, List.infix_cons_iff]

/-- Containment is antitone in the needle: if the haystack contains `n2`
and `n1` occurs inside `n2`, the haystack contains `n1`. -/
theorem strContains_of_sub (hay n1 n2 : String) (hsub : findSub n1.data n2.data = true)
    (h : strContains hay n2 = true) : strContains hay n1 = true := by
  rw [strContains, findSub_iff] at h ⊢
  rw [findSub_iff] at hsub
  exact hsub.trans h

theorem strContains_dot_false (hay n1 n2 : String) (hsub : findSub n1.data n2.data = true)
    (h : strContains hay n1 = false) : strContains hay n2 = false := by
  cases hc : strContains hay n2 with
  | false => rfl
  | true =>
    rw [strContains_of_sub hay n1 n2 hsub hc] at h
    simp at h

/-- `get_sso_oidc_client` always leaves the current region equal to the
requested region. -/
theorem goc_current_region (st : SSOState) (region : String) :
    (get_sso_oidc_client st region).current_region = some region := by
  by_cases h : st.current_region = some region <;>
    simp [get_sso_oidc_client, h] <;> split <;> simp [h]

/-- When the region is unchanged, `get_sso_oidc_client` keeps the client
pair and the device code. -/
theorem goc_preserves_when_same (st : SSOState) (region : String)
    (h : st.current_region = some region) :
    (get_sso_oidc_client st region).client_id = st.client_id ∧
    (get_sso_oidc_client st region).client_secret = st.client_secret ∧
    (get_sso_oidc_client st region).device_code = st.device_code := by
  have hne : ¬ (st.current_region ≠ some region) := by simp [h]
  unfold get_sso_oidc_client
  rw [if_neg hne]
  by_cases ho : st.sso_oidc_client = none <;> simp [ho]

/-! ## C1 -/

/-- C1 (counterexample): a submitted request naming both a profile and an
SSO account/role is not rejected; `start_scan` creates a pending job
record in the registry. -/
theorem C1_counterexample :
    reqBoth.aws_profile.isSome = true ∧ reqBoth.sso_account_id.isSome = true ∧
    reqBoth.sso_role_name.isSome = true ∧
    (start_scan [] "job-1" 0 reqBoth).2 ≠ [] ∧
    (start_scan [] "job-1" 0 reqBoth).2.length = 1 ∧
    (start_scan [] "job-1" 0 reqBoth).1.status = .pending := by
  refine ⟨rfl, rfl, rfl, ?_, rfl, rfl⟩
  decide

/-- C1 (amended): the submit operation performs no validation at all; for
every request, including one naming both a profile and an SSO
account/role, it creates a pending job record at progress 0 and appends it
to the registry. -/
theorem C1_submit_always_creates (registry : List Job) (job_id : String) (now : Nat)
    (req : ScanRequest) :
    (start_scan registry job_id now req).1.status = .pending ∧
    (start_scan registry job_id now req).1.progress = 0 ∧
    (start_scan registry job_id now req).2 =
      registry ++ [(start_scan registry job_id now req).1] :=
  ⟨rfl, rfl, rfl⟩

/-! ## C3 -/

/-- C3 (counterexample): with a present but expired token (expiry 10,
current time 99) the handler is not authenticated, yet
`get_role_credentials` attempts the provider call and returns its result
instead of the Unauthenticated error value. -/
theorem C3_counterexample :
    is_authenticated ssoExpired 99 = false ∧
    (get_role_credentials ssoExpired (.ok credsSample) "111122223333" "Admin" "us-east-1").attempted
      = true ∧
    (get_role_credentials ssoExpired (.ok credsSample) "111122223333" "Admin" "us-east-1").outcome
      = .creds credsSample := by
  decide

/-- C3 (amended): `get_role_credentials` keys only on the presence of an
access token, not its expiry: with a falsy token it returns the
Unauthenticated error value without a provider call, and with any
non-falsy token (expired or not) it attempts the provider call. -/
theorem C3_token_presence_only (st : SSOState) (provider : ProviderCredsResult)
    (account_id role_name region : String) :
    (strFalsy st.access_token = true →
      (get_role_credentials st provider account_id role_name region).outcome
          = .error "Not authenticated" ∧
      (get_role_credentials st provider account_id role_name region).attempted = false) ∧
    (strFalsy st.access_token = false →
      (get_role_credentials st provider account_id role_name region).attempted = true) := by
  constructor
  · intro h
    constructor <;> simp [get_role_credentials, h]
  · intro h
    cases provider <;> simp [get_role_credentials, h]

/-- C3 (witness): the amended theorem applied to the fresh handler state. -/
theorem C3_witness :
    strFalsy ssoFresh.access_token = true ∧
    ((get_role_credentials ssoFresh (.ok credsSample) "1" "r" "us-east-1").outcome
        = .error "Not authenticated" ∧
      (get_role_credentials ssoFresh (.ok credsSample) "1" "r" "us-east-1").attempted = false) :=
  ⟨by decide,
    (C3_token_presence_only ssoFresh (.ok credsSample) "1" "r" "us-east-1").1 (by decide)⟩

/-! ## C7 -/

/-- C7 (counterexample): with a client already registered and the region
unchanged, `start_device_authorization` still performs a provider
registration call, refuting the claimed "if and only if". -/
theorem C7_counterexample :
    ssoRegistered.client_id ≠ none ∧
    ssoRegistered.current_region = some "us-east-1" ∧
    (start_device_authorization ssoRegistered "https://corp.awsapps.com/start"
        (some "us-east-1") rrSample drSample).registeredCall = true := by
  refine ⟨?_, rfl, rfl⟩
  decide

/-- C7 (amended): `start_device_authorization` registers a new OIDC client
with the provider on every call, regardless of region or prior
registration; afterwards the stored client id/secret pair is the pair from
that call's registration response, and the device code is stored. -/
theorem C7_always_registers (st : SSOState) (start_url : String) (region : Option String)
    (rr : RegisterResponse) (dr : DeviceAuthResponse) :
    (start_device_authorization st start_url region rr dr).registeredCall = true ∧
    (start_device_authorization st start_url region rr dr).st.client_id = some rr.clientId ∧
    (start_device_authorization st start_url region rr dr).st.client_secret
      = some rr.clientSecret ∧
    (start_device_authorization st start_url region rr dr).st.device_code
      = some dr.deviceCode := by
  have h1 : ∀ r : String, (register_client st r rr).current_region = some r := by
    intro r
    show (get_sso_oidc_client st r).current_region = some r
    exact goc_current_region st r
  have h2 := fun r : String =>
    (goc_preserves_when_same (register_client st r rr) r (h1 r)).1
  have h3 := fun r : String =>
    (goc_preserves_when_same (register_client st r rr) r (h1 r)).2.1
  exact ⟨rfl, h2 _, h3 _, rfl⟩

/-! ## C10 -/

/-- C10 (counterexample): an explicit JSON null for the region field is
expressible over the public HTTP interface, parses to `None`, and reaches
the URL-based region-inference branch of `start_device_authorization`. -/
theorem C10_counterexample :
    parseRegionField .null = none ∧
    (sso_start ssoFresh "https://corp.awsapps.com/start" .null rrSample drSample).inferredRegion
      = true := by
  exact ⟨rfl, rfl⟩

/-- C10 (amended): the region default applies only when the field is
omitted: an omitted region parses to `us-east-1`, the inference branch is
not taken, and the authorization uses `us-east-1`; an explicit null or
empty region does reach the inference branch. -/
theorem C10_default_only_when_omitted (st : SSOState) (start_url : String)
    (rr : RegisterResponse) (dr : DeviceAuthResponse) :
    parseRegionField .omitted = some "us-east-1" ∧
    (sso_start st start_url .omitted rr dr).inferredRegion = false ∧
    (sso_start st start_url .omitted rr dr).usedRegion = "us-east-1" ∧
    (sso_start st start_url .null rr dr).inferredRegion = true ∧
    (sso_start st start_url (.given "") rr dr).inferredRegion = true :=
  ⟨rfl, rfl, rfl, rfl, rfl⟩

/-- With the session's own region and a cached OIDC client,
`get_sso_oidc_client` is the identity (the situation during polling). -/
theorem goc_id (st : SSOState) (region : String)
    (hr : st.current_region = some region) (ho : st.sso_oidc_client ≠ none) :
    get_sso_oidc_client st region = st := by
  have hne : ¬ (st.current_region ≠ some region) := by simp [hr]
  unfold get_sso_oidc_client
  rw [if_neg hne, if_neg ho]

/-! ## C6 -/

/-- C6: on a live session polled at its own region, an `Expired` or
`Denied` provider outcome clears the device code and every subsequent poll
returns the no-session error with the session still cleared, while
`Pending` and `SlowDown` leave the handler state entirely unchanged. -/
theorem C6_session_clearing (st : SSOState) (now now2 : Nat) (region : String)
    (p2 : TokenProviderResult)
    (hd : strFalsy st.device_code = false) (hc : strFalsy st.client_id = false)
    (hr : st.current_region = some region) (ho : st.sso_oidc_client ≠ none) :
    ((poll_for_token st now .expiredToken region).2.device_code = none ∧
      (poll_for_token (poll_for_token st now .expiredToken region).2 now2 p2 region).1 =
        pollError "No device authorization in progress" ∧
      (poll_for_token (poll_for_token st now .expiredToken region).2 now2 p2 region).2 =
        (poll_for_token st now .expiredToken region).2) ∧
    ((poll_for_token st now .accessDenied region).2.device_code = none ∧
      (poll_for_token (poll_for_token st now .accessDenied region).2 now2 p2 region).1 =
        pollError "No device authorization in progress") ∧
    (poll_for_token st now .authorizationPending region).2 = st ∧
    (poll_for_token st now .slowDown region).2 = st := by
  have hgoc := goc_id st region hr ho
  have hexp : (poll_for_token st now .expiredToken region).2 =
      { st with device_code := none } := by
    simp [poll_for_token, hd, hc, hgoc]
  have hden : (poll_for_token st now .accessDenied region).2 =
      { st with device_code := none } := by
    simp [poll_for_token, hd, hc, hgoc]
  refine ⟨⟨?_, ?_, ?_⟩, ⟨?_, ?_⟩, ?_, ?_⟩
  · rw [hexp]
  · rw [hexp]; simp [poll_for_token, strFalsy]
  · rw [hexp]; simp [poll_for_token, strFalsy]
  · rw [hden]
  · rw [hden]; simp [poll_for_token, strFalsy]
  · simp [poll_for_token, hd, hc, hgoc]
  · simp [poll_for_token, hd, hc, hgoc]

/-- C6 (witness): the theorem applied to the concrete in-flight session. -/
theorem C6_witness :
    (strFalsy ssoInFlight.device_code = false ∧ strFalsy ssoInFlight.client_id = false ∧
      ssoInFlight.current_region = some "us-east-1" ∧ ssoInFlight.sso_oidc_client ≠ none) ∧
    ((poll_for_token ssoInFlight 0 .expiredToken "us-east-1").2.device_code = none ∧
      (poll_for_token (poll_for_token ssoInFlight 0 .expiredToken "us-east-1").2 5
          .authorizationPending "us-east-1").1 =
        pollError "No device authorization in progress") :=
  ⟨⟨by decide, by decide, by decide, by decide⟩,
    ⟨(C6_session_clearing ssoInFlight 0 5 "us-east-1" .authorizationPending
        (by decide) (by decide) (by decide) (by decide)).1.1,
      (C6_session_clearing ssoInFlight 0 5 "us-east-1" .authorizationPending
        (by decide) (by decide) (by decide) (by decide)).1.2.1⟩⟩

/-! ## C8 -/

/-- C8 (counterexample): after two submissions with strictly increasing
creation times, the list operation returns the older job first, so the
result is not ordered most-recent-first. -/
theorem C8_counterexample :
    (list_scans regTwoJobs).length = 2 ∧
    ((list_scans regTwoJobs).map Job.created_at) = [1, 2] ∧
    sortedDescB (list_scans regTwoJobs) = false ∧
    sortedAscB (list_scans regTwoJobs) = true := by
  decide

/-- Appending a record no older than everything in the list preserves
ascending creation order. -/
theorem sortedAscB_append (l : List Job) (x : Job) (hl : sortedAscB l = true)
    (hx : ∀ j ∈ l, j.created_at ≤ x.created_at) : sortedAscB (l ++ [x]) = true := by
  induction l with
  | nil => rfl
  | cons a rest ih =>
    cases rest with
    | nil => simp [sortedAscB, hx a (by simp)]
    | cons b rest2 =>
      have hab : decide (a.created_at ≤ b.created_at) = true ∧
          sortedAscB (b :: rest2) = true := by simpa [sortedAscB] using hl
      have htail := ih hab.2 (fun j hj => hx j (by simp [hj]))
      simp only [List.cons_append] at htail ⊢
      simp [sortedAscB, hab.1, htail]

/-- C8 (amended): `list_scans` returns all job records in insertion order,
i.e. ascending creation order (oldest first) when clocks advance: each
submission appends its record at the end, and appending at a time no
earlier than every stored record keeps the list ascending. -/
theorem C8_list_insertion_order (registry : List Job) (job_id : String) (now : Nat)
    (req : ScanRequest) (h : ∀ j ∈ registry, j.created_at ≤ now) :
    list_scans (start_scan registry job_id now req).2 =
      list_scans registry ++ [(start_scan registry job_id now req).1] ∧
    (sortedAscB (list_scans registry) = true →
      sortedAscB (list_scans (start_scan registry job_id now req).2) = true) := by
  refine ⟨rfl, fun hs => ?_⟩
  exact sortedAscB_append registry (initialJob job_id now req) hs h

/-- C8 (witness): the amended theorem applied after one submission. -/
theorem C8_witness :
    (∀ j ∈ (start_scan [] "job-a" 1 reqPlain).2, j.created_at ≤ 2) ∧
    (sortedAscB (list_scans (start_scan [] "job-a" 1 reqPlain).2) = true →
      sortedAscB (list_scans
        (start_scan ((start_scan [] "job-a" 1 reqPlain).2) "job-b" 2 reqPlain).2) = true) :=
  ⟨by decide,
    (C8_list_insertion_order ((start_scan [] "job-a" 1 reqPlain).2) "job-b" 2 reqPlain
      (by decide)).2⟩

/-! ## C9 -/

/-- C9 (counterexample): a start URL containing the indicator of exactly
one supported region (`eu-west-1`) and no other, but not `awsapps.com`,
resolves to the default `us-east-1`, not to `eu-west-1`. -/
theorem C9_counterexample :
    strContains (strLower urlNonAwsapps) "eu-west-1" = true ∧
    strContains (strLower urlNonAwsapps) "awsapps.com" = false ∧
    strContains (strLower urlNonAwsapps) "us-east-1" = false ∧
    strContains (strLower urlNonAwsapps) "us-east-2" = false ∧
    strContains (strLower urlNonAwsapps) "us-west-2" = false ∧
    strContains (strLower urlNonAwsapps) "eu-central-1" = false ∧
    strContains (strLower urlNonAwsapps) "ap-southeast-1" = false ∧
    strContains (strLower urlNonAwsapps) "ap-northeast-1" = false ∧
    detect_region_from_url urlNonAwsapps = "us-east-1" := by
  decide

/-- C9 (amended): restricted to URLs containing `awsapps.com`, a URL whose
lowercase form contains the `eu-west-1` indicator and none of the
indicators checked before it resolves to `eu-west-1`. -/
theorem C9_awsapps_detection (url : String)
    (h0 : strContains (strLower url) "awsapps.com" = true)
    (h1 : strContains (strLower url) "eu-west-1" = true)
    (h2 : strContains (strLower url) "us-east-1" = false)
    (h3 : strContains (strLower url) "us-east-2" = false)
    (h4 : strContains (strLower url) "us-west-2" = false) :
    detect_region_from_url url = "eu-west-1" := by
  have d1 : strContains (strLower url) ".us-east-1." = false :=
    strContains_dot_false _ "us-east-1" ".us-east-1." (by decide) h2
  have d2 : strContains (strLower url) ".us-east-2." = false :=
    strContains_dot_false _ "us-east-2" ".us-east-2." (by decide) h3
  have d3 : strContains (strLower url) ".us-west-2." = false :=
    strContains_dot_false _ "us-west-2" ".us-west-2." (by decide) h4
  simp [detect_region_from_url, h0, h1, h2, h3, h4, d1, d2, d3]

/-- C9 (witness): the amended theorem at a concrete `awsapps.com` URL. -/
theorem C9_witness :
    (strContains (strLower "https://mycorp.awsapps.com/eu-west-1/start") "awsapps.com" = true ∧
      strContains (strLower "https://mycorp.awsapps.com/eu-west-1/start") "eu-west-1" = true ∧
      strContains (strLower "https://mycorp.awsapps.com/eu-west-1/start") "us-east-1" = false ∧
      strContains (strLower "https://mycorp.awsapps.com/eu-west-1/start") "us-east-2" = false ∧
      strContains (strLower "https://mycorp.awsapps.com/eu-west-1/start") "us-west-2" = false) ∧
    detect_region_from_url "https://mycorp.awsapps.com/eu-west-1/start" = "eu-west-1" :=
  ⟨⟨by decide, by decide, by decide, by decide, by decide⟩,
    C9_awsapps_detection "https://mycorp.awsapps.com/eu-west-1/start"
      (by decide) (by decide) (by decide) (by decide) (by decide)⟩

/-! ## Loop and trace lemmas -/

theorem progressFor_le_90 (s t : Nat) : progressFor s t ≤ 90 := Nat.min_le_right _ _

theorem progressFor_mono (s t : Nat) : progressFor s t ≤ progressFor (s + 1) t := by
  unfold progressFor
  have h1 : s * 80 ≤ (s + 1) * 80 := by omega
  have h2 : s * 80 / t ≤ (s + 1) * 80 / t := Nat.div_le_div_right h1
  exact min_le_min (by omega) (le_refl _)

theorem progressFor_zero (t : Nat) : progressFor 0 t = 10 := by
  simp [progressFor]

/-- Every snapshot written by the output loop has progress at most 90. -/
theorem scanLoop_progress_le_90 (total : Nat) (lines : List String) :
    ∀ (scanned : Nat) (j : Job) (buf : List String) (k : Job),
      k ∈ (scanLoop total scanned j buf lines).trace → k.progress ≤ 90 := by
  induction lines with
  | nil => intro scanned j buf k hk; simp [scanLoop] at hk
  | cons line rest ih =>
    intro scanned j buf k hk
    cases he : (line == "") with
    | true => rw [scanLoop] at hk; rw [he] at hk; simp at hk
    | false =>
      cases hm : markerLine line with
      | false =>
        rw [scanLoop] at hk; rw [he, hm] at hk; simp only [if_false] at hk
        exact ih _ _ _ _ (by simpa using hk)
      | true =>
        cases h0 : (total == 0) with
        | true =>
          rw [scanLoop] at hk; rw [he, hm, h0] at hk; simp at hk
        | false =>
          rw [scanLoop] at hk; rw [he, hm, h0] at hk
          simp only [Bool.false_eq_true, if_false, if_true, List.mem_cons] at hk
          rcases hk with rfl | hk
          · exact progressFor_le_90 _ _
          rcases hk with rfl | hk
          · exact progressFor_le_90 _ _
          · exact ih _ _ _ _ hk

/-- Structural invariant of the output loop: starting from a running job
whose progress matches the formula at the current counter, the written
snapshots are non-decreasing, end at the final job's progress, and are all
running; the final job is running with progress at most 90. -/
theorem scanLoop_inv (total : Nat) (lines : List String) :
    ∀ (scanned : Nat) (j : Job) (buf : List String),
      j.progress = progressFor scanned total → j.status = .running →
      monoFrom j.progress (scanLoop total scanned j buf lines).trace ∧
      lastProg j.progress (scanLoop total scanned j buf lines).trace
        = (scanLoop total scanned j buf lines).job.progress ∧
      (scanLoop total scanned j buf lines).job.progress ≤ 90 ∧
      (scanLoop total scanned j buf lines).job.status = .running ∧
      (∀ k ∈ (scanLoop total scanned j buf lines).trace, k.status = .running) := by
  induction lines with
  | nil =>
    intro scanned j buf hp hs
    refine ⟨trivial, rfl, ?_, hs, ?_⟩
    · rw [show (scanLoop total scanned j buf []).job = j from rfl, hp]
      exact progressFor_le_90 _ _
    · intro k hk; simp [scanLoop] at hk
  | cons line rest ih =>
    intro scanned j buf hp hs
    cases he : (line == "") with
    | true =>
      rw [scanLoop]; rw [he]; simp only [if_true]
      refine ⟨trivial, rfl, ?_, hs, ?_⟩
      · rw [show (j : Job).progress = progressFor scanned total from hp]
        exact progressFor_le_90 _ _
      · intro k hk; simp at hk
    | false =>
      cases hm : markerLine line with
      | false =>
        rw [scanLoop]; rw [he, hm]; simp only [Bool.false_eq_true, if_false]
        exact ih scanned j (buf ++ [strTrim line]) hp hs
      | true =>
        cases h0 : (total == 0) with
        | true =>
          rw [scanLoop]; rw [he, hm, h0]; simp only [Bool.false_eq_true, if_false, if_true]
          refine ⟨trivial, rfl, ?_, hs, ?_⟩
          · rw [show (j : Job).progress = progressFor scanned total from hp]
            exact progressFor_le_90 _ _
          · intro k hk; simp at hk
        | false =>
          rw [scanLoop]; rw [he, hm, h0]; simp only [Bool.false_eq_true, if_false, if_true]
          have hrec := ih (scanned + 1)
            { j with progress := progressFor (scanned + 1) total,
                     current_task := truncTask line }
            (buf ++ [strTrim line]) rfl hs
          obtain ⟨rA, rB, rC, rD, rE⟩ := hrec
          refine ⟨⟨?_, le_refl _, rA⟩, ?_, rC, rD, ?_⟩
          · rw [hp]; exact progressFor_mono _ _
          · exact rB
          · intro k hk
            simp only [List.mem_cons] at hk
            rcases hk with rfl | hk
            · exact hs
            rcases hk with rfl | hk
            · exact hs
            · exact rE k hk

/-- The counter after the loop equals the prior counter plus the number of
marker lines, when the line sentinel and the zero-division exception do
not cut the loop short. -/
theorem scanLoop_scanned_count (total : Nat) (lines : List String) :
    ∀ (scanned : Nat) (j : Job) (buf : List String),
      (∀ l ∈ lines, ¬ (l = "")) → 0 < total →
      (scanLoop total scanned j buf lines).scanned = scanned + countMarkers lines := by
  induction lines with
  | nil => intro scanned j buf _ _; simp [scanLoop, countMarkers]
  | cons line rest ih =>
    intro scanned j buf hne ht
    have he : (line == "") = false := by
      simpa using hne line (by simp)
    have h0 : (total == 0) = false := by
      simp; omega
    cases hm : markerLine line with
    | false =>
      rw [scanLoop]; rw [he, hm]; simp only [Bool.false_eq_true, if_false]
      rw [ih scanned j (buf ++ [strTrim line]) (fun l hl => hne l (by simp [hl])) ht]
      simp [countMarkers, hm]
    | true =>
      rw [scanLoop]; rw [he, hm, h0]; simp only [Bool.false_eq_true, if_false, if_true]
      rw [ih (scanned + 1) _ (buf ++ [strTrim line]) (fun l hl => hne l (by simp [hl])) ht]
      simp [countMarkers, hm]; omega

/-- The first snapshot written for a marker line carries the recomputed
progress value. -/
theorem scanLoop_marker_head (total scanned : Nat) (j : Job) (buf : List String)
    (line : String) (rest : List String) (hm : markerLine line = true)
    (hne : ¬ (line = "")) (ht : 0 < total) :
    (scanLoop total scanned j buf (line :: rest)).trace.head?.map Job.progress
      = some (min (10 + (scanned + 1) * 80 / total) 90) := by
  have he : (line == "") = false := by simpa using hne
  have h0 : (total == 0) = false := by simp; omega
  rw [scanLoop]; rw [he, hm, h0]
  simp only [Bool.false_eq_true, if_false, if_true, List.head?_cons, Option.map_some]
  rfl

theorem monoFrom_append (l1 : List Job) :
    ∀ (p : Nat) (l2 : List Job), monoFrom p l1 → monoFrom (lastProg p l1) l2 →
      monoFrom p (l1 ++ l2) := by
  induction l1 with
  | nil => intro p l2 _ h2; exact h2
  | cons a t ih =>
    intro p l2 h1 h2
    exact ⟨h1.1, ih a.progress l2 h1.2 h2⟩

theorem statusStable_append (l1 l2 : List Job)
    (h1 : ∀ j ∈ l1, j.status.isTerminal = false) (h2 : statusStable l2) :
    statusStable (l1 ++ l2) := by
  induction l1 with
  | nil => exact h2
  | cons a t ih =>
    refine ⟨fun hterm => ?_, ih (fun j hj => h1 j (by simp [hj]))⟩
    rw [h1 a (by simp)] at hterm
    exact absurd hterm (by simp)

/-- The WebSocket loop never emits anything after the first terminal
snapshot, whatever sequence of snapshots it samples. -/
theorem observe_no_further (l : List Job) : noFurtherAfterTerminal (observe l) := by
  induction l with
  | nil => trivial
  | cons j rest ih =>
    cases ht : j.status.isTerminal with
    | true =>
      rw [observe]; rw [if_pos ht]
      exact ⟨fun _ => rfl, trivial⟩
    | false =>
      rw [observe]; rw [if_neg (by simp [ht])]
      refine ⟨fun habs => ?_, ih⟩
      rw [ht] at habs
      exact absurd habs (by simp)

/-- The terminal segment is non-decreasing from the loop's final progress. -/
theorem termSegment_mono (out : LoopOut) (env : ScanEnv) (h : out.job.progress ≤ 90) :
    monoFrom out.job.progress (termSegment out env) := by
  unfold termSegment
  split
  · exact ⟨le_refl _, le_refl _, trivial⟩
  · split
    · split
      · exact ⟨le_refl _, le_trans h (by norm_num), le_refl _, le_refl _, le_refl _, trivial⟩
      · exact ⟨le_refl _, le_trans h (by norm_num), le_refl _, le_refl _, trivial⟩
    · exact ⟨le_refl _, le_refl _, trivial⟩

/-- The terminal segment writes one terminal status and never changes the
status afterwards. -/
theorem termSegment_stable (out : LoopOut) (env : ScanEnv) :
    statusStable (termSegment out env) := by
  unfold termSegment
  split
  · exact ⟨fun _ k hk => by simp at hk; rw [hk], fun _ k hk => by simp at hk, trivial⟩
  · split
    · split
      · refine ⟨fun _ k hk => ?_, fun _ k hk => ?_, fun _ k hk => ?_, fun _ k hk => ?_,
          fun _ k hk => ?_, trivial⟩ <;> simp at hk <;>
          first
            | (rcases hk with rfl | rfl | rfl | rfl; all_goals rfl)
            | (rcases hk with rfl | rfl | rfl; all_goals rfl)
            | (rcases hk with rfl | rfl; all_goals rfl)
            | (rw [hk])
      · refine ⟨fun _ k hk => ?_, fun _ k hk => ?_, fun _ k hk => ?_, fun _ k hk => ?_,
          trivial⟩ <;> simp at hk <;>
          first
            | (rcases hk with rfl | rfl | rfl; all_goals rfl)
            | (rcases hk with rfl | rfl; all_goals rfl)
            | (rw [hk])
    · exact ⟨fun _ k hk => by simp at hk; rw [hk], fun _ k hk => by simp at hk, trivial⟩

/-- Every element of the terminal segment has a terminal status. -/
theorem termSegment_terminal (out : LoopOut) (env : ScanEnv) :
    ∀ k ∈ termSegment out env, k.status.isTerminal = true := by
  unfold termSegment
  split
  · intro k hk; simp at hk
    rcases hk with rfl | rfl <;> rfl
  · split
    · split
      · intro k hk; simp at hk
        rcases hk with rfl | rfl | rfl | rfl | rfl <;> rfl
      · intro k hk; simp at hk
        rcases hk with rfl | rfl | rfl | rfl <;> rfl
    · intro k hk; simp at hk
      rcases hk with rfl | rfl <;> rfl

/-- From a running job at progress at most 10, the post-spawn part of the
runner writes a non-decreasing, status-stable snapshot sequence. -/
theorem continueScan_spec (j : Job) (mode : CredMode) (req : ScanRequest) (env : ScanEnv)
    (hs : j.status = .running) (hp : j.progress ≤ 10) :
    monoFrom j.progress (continueScan j mode req env).1 ∧
    statusStable (continueScan j mode req env).1 := by
  have hpB : (jobAtTen j req).progress = progressFor 0 req.services.length := by
    rw [progressFor_zero]; rfl
  have hsB : (jobAtTen j req).status = .running := hs
  obtain ⟨rA, rB, rC, rD, rE⟩ :=
    scanLoop_inv req.services.length env.output_lines 0 (jobAtTen j req) [] hpB hsB
  have rA' : monoFrom (jobAtTen j req).progress (loopOutFor j req env).trace := rA
  have rB' : lastProg (jobAtTen j req).progress (loopOutFor j req env).trace
      = (loopOutFor j req env).job.progress := rB
  have rC' : (loopOutFor j req env).job.progress ≤ 90 := rC
  have rE' : ∀ k ∈ (loopOutFor j req env).trace, k.status = .running := rE
  have hseg : monoFrom (lastProg (jobAtTen j req).progress (loopOutFor j req env).trace)
      (termSegment (loopOutFor j req env) env) := by
    have hm := termSegment_mono (loopOutFor j req env) env rC'
    rw [← rB'] at hm
    exact hm
  constructor
  · exact ⟨le_refl _, hp,
      monoFrom_append (loopOutFor j req env).trace (jobAtTen j req).progress
        (termSegment (loopOutFor j req env) env) rA' hseg⟩
  · refine statusStable_append
      ([jobPreSpawn j req, jobAtTen j req] ++ (loopOutFor j req env).trace)
      (termSegment (loopOutFor j req env) env) ?_
      (termSegment_stable (loopOutFor j req env) env)
    intro k hk
    simp only [List.mem_append, List.mem_cons] at hk
    rcases hk with (rfl | rfl | hfalse) | hk
    · show (j.status).isTerminal = false
      rw [hs]; rfl
    · show (j.status).isTerminal = false
      rw [hs]; rfl
    · simp at hfalse
    · rw [rE' k hk]; rfl

/-- Branch equation: request does not take the SSO path. -/
theorem run_scan_eq_gate_false (j0 : Job) (req : ScanRequest) (env : ScanEnv)
    (hgate : (req.use_sso && is_authenticated env.sso env.now) = false) :
    run_scan j0 req env =
      ([jobRunning j0, jobPreparing j0, jobAtFive j0]
          ++ (continueScan (jobAtFive j0) (fallbackMode req) req env).1,
        (continueScan (jobAtFive j0) (fallbackMode req) req env).2) := by
  rw [run_scan]; rw [hgate]; simp

/-- Branch equation: SSO path, but account or role missing. -/
theorem run_scan_eq_no_sel (j0 : Job) (req : ScanRequest) (env : ScanEnv)
    (hgate : (req.use_sso && is_authenticated env.sso env.now) = true)
    (hsel : hasSSOSelection req = false) :
    run_scan j0 req env =
      ([jobRunning j0, jobPreparing j0, jobAtFive j0] ++ [jobGettingCreds j0]
          ++ failPair (jobGettingCreds j0)
            "SSO login detected but no account/role selected. Please select an account and role.",
        none) := by
  rw [run_scan]; rw [hgate, hsel]; simp

/-- Branch equation: SSO path, credential exchange returns the error value. -/
theorem run_scan_eq_err (j0 : Job) (req : ScanRequest) (env : ScanEnv) (m : String)
    (hgate : (req.use_sso && is_authenticated env.sso env.now) = true)
    (hsel : hasSSOSelection req = true)
    (houtc : ssoOutcomeFor req env = .error m) :
    run_scan j0 req env =
      ([jobRunning j0, jobPreparing j0, jobAtFive j0] ++ [jobGettingCreds j0]
          ++ failPair (jobGettingCreds j0) ("Failed to get SSO credentials: " ++ m),
        none) := by
  rw [run_scan]; rw [hgate, hsel, houtc]; simp

/-- Branch equation: SSO path, credential exchange succeeds. -/
theorem run_scan_eq_creds (j0 : Job) (req : ScanRequest) (env : ScanEnv) (c : RoleCreds)
    (hgate : (req.use_sso && is_authenticated env.sso env.now) = true)
    (hsel : hasSSOSelection req = true)
    (houtc : ssoOutcomeFor req env = .creds c) :
    run_scan j0 req env =
      ([jobRunning j0, jobPreparing j0, jobAtFive j0]
          ++ [jobGettingCreds j0, jobObtained j0 req]
          ++ (continueScan (jobObtained j0 req) (.ssoKeys c) req env).1,
        (continueScan (jobObtained j0 req) (.ssoKeys c) req env).2) := by
  rw [run_scan]; rw [hgate, hsel, houtc]; simp

/-- The full write sequence of one run is non-decreasing in progress. -/
theorem run_scan_mono (req : ScanRequest) (env : ScanEnv) (j0 : Job)
    (h0 : j0.progress = 0) (h1 : j0.status = .pending) :
    monoFrom 0 (j0 :: (run_scan j0 req env).1) := by
  have hp5 : (jobAtFive j0).progress ≤ 10 := by show (5:Nat) ≤ 10; norm_num
  have hpo : (jobObtained j0 req).progress ≤ 10 := by show (5:Nat) ≤ 10; norm_num
  have h05 : j0.progress ≤ 5 := by rw [h0]; norm_num
  by_cases hgate : (req.use_sso && is_authenticated env.sso env.now) = true
  · by_cases hsel : hasSSOSelection req = true
    · cases houtc : ssoOutcomeFor req env with
      | error m =>
        rw [run_scan_eq_err j0 req env m hgate hsel houtc]
        exact ⟨Nat.zero_le _, le_refl _, le_refl _, h05, le_refl _, le_refl _, le_refl _,
          trivial⟩
      | creds c =>
        rw [run_scan_eq_creds j0 req env c hgate hsel houtc]
        have hcs := (continueScan_spec (jobObtained j0 req) (.ssoKeys c) req env rfl hpo).1
        exact ⟨Nat.zero_le _, le_refl _, le_refl _, h05, le_refl _, le_refl _, hcs⟩
    · have hselF : hasSSOSelection req = false := by simpa using hsel
      rw [run_scan_eq_no_sel j0 req env hgate hselF]
      exact ⟨Nat.zero_le _, le_refl _, le_refl _, h05, le_refl _, le_refl _, le_refl _,
        trivial⟩
  · have hgF : (req.use_sso && is_authenticated env.sso env.now) = false := by
      simpa using hgate
    rw [run_scan_eq_gate_false j0 req env hgF]
    have hcs := (continueScan_spec (jobAtFive j0) (fallbackMode req) req env rfl hp5).1
    exact ⟨Nat.zero_le _, le_refl _, le_refl _, h05, hcs⟩

/-- The full write sequence of one run changes status at most once into a
terminal value and never changes it afterwards. -/
theorem run_scan_stable (req : ScanRequest) (env : ScanEnv) (j0 : Job)
    (h1 : j0.status = .pending) :
    statusStable (j0 :: (run_scan j0 req env).1) := by
  have hne0 : ¬ (j0.status.isTerminal = true) := by rw [h1]; decide
  by_cases hgate : (req.use_sso && is_authenticated env.sso env.now) = true
  · by_cases hsel : hasSSOSelection req = true
    · cases houtc : ssoOutcomeFor req env with
      | error m =>
        rw [run_scan_eq_err j0 req env m hgate hsel houtc]
        exact ⟨fun h => absurd h hne0, fun h => absurd h Bool.false_ne_true,
          fun h => absurd h Bool.false_ne_true, fun h => absurd h Bool.false_ne_true,
          fun h => absurd h Bool.false_ne_true,
          fun _ k hk => by simp at hk; subst hk; rfl,
          fun _ k hk => by simp at hk, trivial⟩
      | creds c =>
        rw [run_scan_eq_creds j0 req env c hgate hsel houtc]
        have hcs := (continueScan_spec (jobObtained j0 req) (.ssoKeys c) req env rfl
          (by show (5:Nat) ≤ 10; norm_num)).2
        exact ⟨fun h => absurd h hne0, fun h => absurd h Bool.false_ne_true,
          fun h => absurd h Bool.false_ne_true, fun h => absurd h Bool.false_ne_true,
          fun h => absurd h Bool.false_ne_true, fun h => absurd h Bool.false_ne_true, hcs⟩
    · have hselF : hasSSOSelection req = false := by simpa using hsel
      rw [run_scan_eq_no_sel j0 req env hgate hselF]
      exact ⟨fun h => absurd h hne0, fun h => absurd h Bool.false_ne_true,
        fun h => absurd h Bool.false_ne_true, fun h => absurd h Bool.false_ne_true,
        fun h => absurd h Bool.false_ne_true,
        fun _ k hk => by simp at hk; subst hk; rfl,
        fun _ k hk => by simp at hk, trivial⟩
  · have hgF : (req.use_sso && is_authenticated env.sso env.now) = false := by
      simpa using hgate
    rw [run_scan_eq_gate_false j0 req env hgF]
    have hcs := (continueScan_spec (jobAtFive j0) (fallbackMode req) req env rfl
      (by show (5:Nat) ≤ 10; norm_num)).2
    exact ⟨fun h => absurd h hne0, fun h => absurd h Bool.false_ne_true,
      fun h => absurd h Bool.false_ne_true, fun h => absurd h Bool.false_ne_true, hcs⟩

/-! ## C5 -/

/-- C5: over its whole lifetime, a job's snapshot sequence is
non-decreasing in progress, the status transitions at most once into a
terminal value and is never changed afterwards, and no subscriber observes
a further update after the first terminal-status snapshot. -/
theorem C5_lifecycle (req : ScanRequest) (env : ScanEnv) (j0 : Job)
    (h0 : j0.progress = 0) (h1 : j0.status = .pending) :
    monoFrom 0 (j0 :: (run_scan j0 req env).1) ∧
    statusStable (j0 :: (run_scan j0 req env).1) ∧
    (∀ sampled : List Job, noFurtherAfterTerminal (observe sampled)) :=
  ⟨run_scan_mono req env j0 h0 h1, run_scan_stable req env j0 h1,
    observe_no_further⟩

/-- C5 (witness): the lifecycle theorem on the concrete two-service job. -/
theorem C5_witness :
    (jobTwo.progress = 0 ∧ jobTwo.status = .pending) ∧
    (monoFrom 0 (jobTwo :: (run_scan jobTwo reqTwo envTwo).1) ∧
      statusStable (jobTwo :: (run_scan jobTwo reqTwo envTwo).1) ∧
      (∀ sampled : List Job, noFurtherAfterTerminal (observe sampled))) :=
  ⟨⟨rfl, rfl⟩, C5_lifecycle reqTwo envTwo jobTwo rfl rfl⟩

/-! ## C4 -/

/-- C4: each marker line increments the scanned counter and rewrites
progress to `min(10 + floor((scanned / total) * 80), 90)`; the counter
after the loop adds one per marker line; every loop snapshot stays at most
90; on the concrete two-service job with two marker lines the written
progress values are 50 then 90. -/
theorem C4_progress_formula :
    (∀ (total scanned : Nat) (j : Job) (buf : List String) (line : String)
        (rest : List String), markerLine line = true → ¬ (line = "") → 0 < total →
        (scanLoop total scanned j buf (line :: rest)).trace.head?.map Job.progress
          = some (min (10 + (scanned + 1) * 80 / total) 90)) ∧
    (∀ (total scanned : Nat) (j : Job) (buf : List String) (lines : List String),
        (∀ l ∈ lines, ¬ (l = "")) → 0 < total →
        (scanLoop total scanned j buf lines).scanned = scanned + countMarkers lines) ∧
    (∀ (total scanned : Nat) (j : Job) (buf : List String) (lines : List String) (k : Job),
        k ∈ (scanLoop total scanned j buf lines).trace → k.progress ≤ 90) ∧
    ((scanLoop 2 0 jobLoop [] envTwo.output_lines).trace.map Job.progress
      = [50, 50, 90, 90]) ∧
    ((scanLoop 2 0 jobLoop [] envTwo.output_lines).scanned = 2) := by
  refine ⟨?_, ?_, ?_, by decide, by decide⟩
  · intro total scanned j buf line rest hm hne ht
    exact scanLoop_marker_head total scanned j buf line rest hm hne ht
  · intro total scanned j buf lines hne ht
    exact scanLoop_scanned_count total lines scanned j buf hne ht
  · intro total scanned j buf lines k hk
    exact scanLoop_progress_le_90 total lines scanned j buf k hk

/-- C4 (witness): the formula conjunct applied to one concrete marker
line with total service count 2, yielding progress 50. -/
theorem C4_witness :
    (markerLine "Processing ec2 in us-east-1" = true ∧
      ¬ ("Processing ec2 in us-east-1" = "") ∧ 0 < 2) ∧
    (scanLoop 2 0 jobLoop [] ["Processing ec2 in us-east-1"]).trace.head?.map Job.progress
      = some (min (10 + (0 + 1) * 80 / 2) 90) :=
  ⟨⟨by decide, by decide, by decide⟩,
    C4_progress_formula.1 2 0 jobLoop [] "Processing ec2 in us-east-1" [] (by decide)
      (by decide) (by decide)⟩

/-! ## C2 -/

/-- C2 (counterexample): an SSO request with account and role selected but
an unauthenticated handler is not failed; the runner silently falls
through, spawns the subprocess with ambient credentials, and the job
completes. -/
theorem C2_counterexample :
    reqSSO.use_sso = true ∧
    is_authenticated envUnauth.sso envUnauth.now = false ∧
    (run_scan jobSSO reqSSO envUnauth).2 = some .ambient ∧
    (lastJob jobSSO (run_scan jobSSO reqSSO envUnauth).1).status = .completed := by
  decide

/-- C2 (amended): only when the request selects SSO and the handler is
currently authenticated does the runner enforce the account/role and
credential-exchange checks: any such failure marks the job Failed with no
subprocess spawn; with SSO selected but the handler unauthenticated, the
SSO branch is skipped and the subprocess is spawned with the profile or
ambient credentials. -/
theorem C2_sso_gate (req : ScanRequest) (env : ScanEnv) (j0 : Job)
    (hs : req.use_sso = true) :
    (is_authenticated env.sso env.now = true →
      (hasSSOSelection req = false ∨ isErrorOutcome (ssoOutcomeFor req env) = true) →
      (run_scan j0 req env).2 = none ∧
      (lastJob j0 (run_scan j0 req env).1).status = .failed) ∧
    (is_authenticated env.sso env.now = false →
      (run_scan j0 req env).2 = some (fallbackMode req)) := by
  constructor
  · intro hauth hbad
    have hgate : (req.use_sso && is_authenticated env.sso env.now) = true := by
      rw [hs, hauth]; rfl
    by_cases hselc : hasSSOSelection req = true
    · rcases hbad with hsel | herr
      · rw [hselc] at hsel; exact absurd hsel (by simp)
      · cases houtc : ssoOutcomeFor req env with
        | creds c => rw [houtc] at herr; simp [isErrorOutcome] at herr
        | error m =>
          rw [run_scan_eq_err j0 req env m hgate hselc houtc]
          exact ⟨rfl, rfl⟩
    · have hselF : hasSSOSelection req = false := by simpa using hselc
      rw [run_scan_eq_no_sel j0 req env hgate hselF]
      exact ⟨rfl, rfl⟩
  · intro hauth
    have hgF : (req.use_sso && is_authenticated env.sso env.now) = false := by
      rw [hauth]; simp
    rw [run_scan_eq_gate_false j0 req env hgF]
    rfl

/-- C2 (witness): the gate theorem on a concrete authenticated handler
with a missing account selection. -/
theorem C2_witness :
    reqSSONoSel.use_sso = true ∧
    ((run_scan jobNoSel reqSSONoSel envAuthed).2 = none ∧
      (lastJob jobNoSel (run_scan jobNoSel reqSSONoSel envAuthed).1).status = .failed) :=
  ⟨by decide, (C2_sso_gate reqSSONoSel envAuthed jobNoSel (by decide)).1 (by decide)
      (Or.inl (by decide))⟩
